import Mathlib

/-!
Verification of the HVV Routes integration (hvv-routes-assistant).

Shallow embedding of the four Python modules:
  * `sensor.py`    — `HVVRoutesDataUpdateCoordinator` (destination state,
    refresh logic) and `HVVDynamicRouteSensor` (state and attribute
    projections), plus the sensor-platform `async_setup_entry`.
  * `services.py`  — the `set_route` service handler.
  * `config_flow.py` — `validate_auth` failure classification.
  * `__init__.py`  — integration setup: coordinator creation and storage.

Python dynamic values flowing through the coordinator payload are embedded
as the inductive `JValue`; each Python operation used by the source
(`dict.get`, indexing, iteration, truthiness) is a total Lean function
returning `Except Unit _`, where `.error ()` stands for a raised exception
caught by the enclosing `try`/`except` block of the source.

Host-framework semantics that the source relies on (Home Assistant's
`DataUpdateCoordinator`) are embedded explicitly: a successful
`_async_update_data` stores its return value as `data` and sets
`last_update_success`; a raised `UpdateFailed` leaves `data` unchanged and
clears `last_update_success`; `async_config_entry_first_refresh` escalates
a failure to the caller.
-/

/-- Embedding of the dynamic (JSON-like) values the Python code passes
around: API payloads, schedule dictionaries, attribute dictionaries. -/
inductive JValue where
  | null
  | str (s : String)
  | num (n : Int)
  | arr (xs : List JValue)
  | obj (fields : List (String × JValue))

/-- Python truthiness of a `JValue`: `None`, `""`, `0`, `[]`, `{}` are falsy. -/
def JValue.truthy : JValue → Bool
  | .null => false
  | .str s => !s.isEmpty
  | .num n => n != 0
  | .arr xs => !xs.isEmpty
  | .obj fs => !fs.isEmpty

/-- Truthiness of an optional payload (`self.coordinator.data`):
`None` (no data) is falsy, otherwise the value's own truthiness. -/
def optTruthy : Option JValue → Bool
  | none => false
  | some v => v.truthy

/-- First value bound to key `k` in an association list. -/
def lookupKey {κ α : Type} [DecidableEq κ] (k : κ) : List (κ × α) → Option α
  | [] => none
  | (k', v) :: rest => if k' = k then some v else lookupKey k rest

/-- Replace the value bound to key `k` (first occurrence) in an
association list, as Python dict assignment does for an existing key. -/
def replaceKey {κ α : Type} [DecidableEq κ] (k : κ) (v : α) :
    List (κ × α) → List (κ × α)
  | [] => []
  | (k', v') :: rest =>
      if k' = k then (k, v) :: rest else (k', v') :: replaceKey k v rest

/-- Python `d.get(key, default)`: the bound value, or `default` when the
key is absent.  Raises (`.error ()`) when the receiver is not a dict,
as `AttributeError` does. -/
def pyDictGet (v : JValue) (k : String) (dflt : JValue) : Except Unit JValue :=
  match v with
  | .obj fs => .ok ((lookupKey k fs).getD dflt)
  | _ => .error ()

/-- Python `xs[i]` on a list: the element, or raised `IndexError` when the
index is out of range; raises on non-list receivers (the source only ever
indexes values it expects to be lists, and every non-list receiver leads
to a raised exception in the enclosing expression). -/
def pyIndex (v : JValue) (i : Nat) : Except Unit JValue :=
  match v with
  | .arr xs =>
      match xs.get? i with
      | some x => .ok x
      | none => .error ()
  | _ => .error ()

/-- Python `for x in v`: lists yield elements, dicts yield their keys,
strings yield one-character strings, other values raise `TypeError`. -/
def pyIter (v : JValue) : Except Unit (List JValue) :=
  match v with
  | .arr xs => .ok xs
  | .obj fs => .ok (fs.map (fun kv => JValue.str kv.1))
  | .str s => .ok (s.toList.map (fun ch => JValue.str (String.mk [ch])))
  | _ => .error ()

/-- Truthiness of an optional string field (`self._dest_station` etc.):
`None` and `""` are falsy. -/
def strTruthy : Option String → Bool
  | none => false
  | some s => !s.isEmpty

/-- Python `x or "currenttime"` on an optional string
(`self._departure_time or "currenttime"`). -/
def orCurrentTime : Option String → String
  | none => "currenttime"
  | some s => if s.isEmpty then "currenttime" else s

/-- An optional string as the dynamic value stored in an attribute dict. -/
def optToJ : Option String → JValue
  | none => .null
  | some s => .str s

/-- Mutable state of `HVVRoutesDataUpdateCoordinator` (sensor.py):
credentials, the fixed home location, the dynamically set destination and
departure-time override, and the `DataUpdateCoordinator` slots `data`
(last successfully returned payload) and `last_update_success`. -/
structure CoordinatorState where
  username : String
  password : String
  home_station : String
  home_city : String
  dest_station : Option String
  dest_city : Option String
  departure_time : Option String
  data : Option JValue
  last_update_success : Bool

/-- A fresh coordinator as built by `HVVRoutesDataUpdateCoordinator.__init__`:
destination and override unset; the host initialises `data = None` and
`last_update_success = True`. -/
def newCoordinator (username password home_station home_city : String) :
    CoordinatorState :=
  { username := username, password := password,
    home_station := home_station, home_city := home_city,
    dest_station := none, dest_city := none, departure_time := none,
    data := none, last_update_success := true }

/-- The query dictionary `_async_update_data` builds for `gti.getRoute`. -/
structure RouteRequest where
  start_name : String
  start_city : String
  dest_name : Option String
  dest_city : Option String
  time_date : String
  time_time : String
  timeIsDeparture : Bool
  realtime : String

/-- Outcome of one call to the Transit Client (`gti.getRoute`): a returned
payload, or a raised exception with its message. -/
inductive ClientResult where
  | ok (payload : JValue)
  | err (msg : String)

/-- Outcome of `_async_update_data`: a returned value (the payload, or
`None` as the "no destination configured" marker), or a raised
`UpdateFailed` with its message. -/
inductive UpdateOutcome where
  | success (payload : Option JValue)
  | failed (msg : String)

/-- Model of `all([self._dest_station, self._dest_city])`: both destination fields
set and non-empty. -/
def destConfigured (st : CoordinatorState) : Bool :=
  strTruthy st.dest_station && strTruthy st.dest_city

/-- The payload `_async_update_data` sends: start = home, dest = the
current destination fields, time = `self._departure_time or
"currenttime"`, `timeIsDeparture = True`, `realtime = "REALTIME"`. -/
def buildPayload (st : CoordinatorState) : RouteRequest :=
  { start_name := st.home_station, start_city := st.home_city,
    dest_name := st.dest_station, dest_city := st.dest_city,
    time_date := "today", time_time := orCurrentTime st.departure_time,
    timeIsDeparture := true, realtime := "REALTIME" }

/-- Model of `HVVRoutesDataUpdateCoordinator._async_update_data`, parameterised by
the Transit Client.  Returns the outcome together with the list of client
calls performed.  If the destination is not fully configured it returns
`None` with no client call; otherwise it calls the client once; a falsy
response raises `UpdateFailed("No route data received")`, which the outer
handler rewraps as `UpdateFailed(f"Error: {err}")`; a client exception is
rewrapped the same way. -/
def asyncUpdateData (client : RouteRequest → ClientResult)
    (st : CoordinatorState) : UpdateOutcome × List RouteRequest :=
  if destConfigured st = false then (.success none, [])
  else
    let req := buildPayload st
    match client req with
    | .err m => (.failed ("Error: " ++ m), [req])
    | .ok p =>
        if p.truthy = false then
          (.failed "Error: No route data received", [req])
        else (.success (some p), [req])

/-- Host `async_refresh` semantics applied to `_async_update_data`: on
success the returned value is stored as `data` and
`last_update_success` is set; on `UpdateFailed` the stored `data` is left
unchanged and `last_update_success` is cleared; the exception does not
propagate.  The refresh outcome is returned alongside the new state. -/
def async_refresh (client : RouteRequest → ClientResult)
    (st : CoordinatorState) : CoordinatorState × UpdateOutcome :=
  match (asyncUpdateData client st).1 with
  | .success p =>
      ({ st with data := p, last_update_success := true }, .success p)
  | .failed m =>
      ({ st with last_update_success := false }, .failed m)

/-- Model of `HVVRoutesDataUpdateCoordinator.set_destination`: store the two
destination fields, then trigger and await a refresh. -/
def set_destination (client : RouteRequest → ClientResult)
    (st : CoordinatorState) (station city : Option String) :
    CoordinatorState × UpdateOutcome :=
  async_refresh client { st with dest_station := station, dest_city := city }

/-- Model of `HVVRoutesDataUpdateCoordinator.set_departure_time`: store the
override, then trigger and await a refresh. -/
def set_departure_time (client : RouteRequest → ClientResult)
    (st : CoordinatorState) (t : Option String) :
    CoordinatorState × UpdateOutcome :=
  async_refresh client { st with departure_time := t }

/-- Body of `HVVDynamicRouteSensor.state` inside its `try`: `'No
Destination Set'` when the stored data is falsy, else the first realtime
schedule's `time` field (default `'Unknown'`), or `'No Routes Found'`
when the schedule list is falsy.  `.error ()` is a raised exception. -/
def sensorStateGo (data : Option JValue) : Except Unit JValue :=
  if optTruthy data = false then .ok (.str "No Destination Set")
  else do
    let v := data.getD .null
    let schedules ← pyDictGet v "realtimeSchedules" (.arr [])
    if schedules.truthy then do
      let first ← pyIndex schedules 0
      pyDictGet first "time" (.str "Unknown")
    else .ok (.str "No Routes Found")

/-- Model of `HVVDynamicRouteSensor.state`: the body's result, with the blanket
`except` handler turning any raised exception into `'Error'`. -/
def sensorState (data : Option JValue) : JValue :=
  match sensorStateGo data with
  | .ok v => v
  | .error _ => .str "Error"

/-- The `line`/`direction` chain in `extra_state_attributes`:
`schedule.get('scheduleElements', [{}])[0].get('line', {}).get(field)`.
The `[{}]` default is used only when the key is absent; a present empty
list makes the indexing raise. -/
def legLineField (schedule : JValue) (field : String) : Except Unit JValue := do
  let se ← pyDictGet schedule "scheduleElements" (.arr [.obj []])
  let first ← pyIndex se 0
  let line ← pyDictGet first "line" (.obj [])
  pyDictGet line field .null

/-- One entry of the `routes` attribute list, built per schedule in
source order: planned departure, planned arrival, duration, then the
first-leg line name and direction. -/
def routeEntry (schedule : JValue) : Except Unit JValue := do
  let dep ← pyDictGet schedule "plannedDepartureTime" .null
  let arr ← pyDictGet schedule "plannedArrivalTime" .null
  let dur ← pyDictGet schedule "time" .null
  let line ← legLineField schedule "name"
  let dir ← legLineField schedule "direction"
  .ok (.obj [("departure_time", dep), ("arrival_time", arr),
             ("duration", dur), ("line", line), ("direction", dir)])

/-- The `for schedule in ...: routes.append(...)` loop: sequential, and a
raised exception at any element aborts the whole loop. -/
def mapRoutes : List JValue → Except Unit (List JValue)
  | [] => .ok []
  | s :: rest => do
      let r ← routeEntry s
      let rs ← mapRoutes rest
      .ok (r :: rs)

/-- The five RouteConfig echo fields present in every successful
attribute dictionary. -/
def configEcho (st : CoordinatorState) : List (String × JValue) :=
  [("home_station", .str st.home_station),
   ("home_city", .str st.home_city),
   ("destination_station", optToJ st.dest_station),
   ("destination_city", optToJ st.dest_city),
   ("departure_time", optToJ st.departure_time)]

/-- Body of `HVVDynamicRouteSensor.extra_state_attributes` inside its
`try`: the config echo alone when the stored data is falsy, otherwise
the echo plus the `routes` list built from `realtimeSchedules`. -/
def attributesGo (st : CoordinatorState) : Except Unit JValue :=
  if optTruthy st.data = false then .ok (.obj (configEcho st))
  else do
    let v := st.data.getD .null
    let scheduleList ← pyDictGet v "realtimeSchedules" (.arr [])
    let items ← pyIter scheduleList
    let routes ← mapRoutes items
    .ok (.obj (configEcho st ++ [("routes", .arr routes)]))

/-- Model of `HVVDynamicRouteSensor.extra_state_attributes`: the body's result,
with the blanket `except` handler turning any raised exception into the
empty dictionary. -/
def extra_state_attributes (st : CoordinatorState) : JValue :=
  match attributesGo st with
  | .ok v => v
  | .error _ => .obj []

/-! Config flow (`config_flow.py`): `validate_auth` failure
classification. -/

/-- Outcome of the auth probe `gti.init()`. -/
inductive ProbeOutcome where
  | ok
  | authError
  | networkError
  | otherError

/-- Exceptions that can cross `validate_auth`'s handler boundaries. -/
inductive FlowError where
  | invalidAuth
  | cannotConnect
  | other
  deriving DecidableEq

/-- The inner `try` of `validate_auth`: `AuthenticationError` becomes a
raised `InvalidAuth`, `NetworkError` a raised `CannotConnect`, any other
exception propagates unchanged.  (This gives the source the benefit that
the two handler class names resolve; in the file as written they are not
imported, which would turn every failing probe into a `NameError` and
change nothing below, since the outer handler catches everything.) -/
def validate_auth_inner (probe : ProbeOutcome) : Except FlowError Unit :=
  match probe with
  | .ok => .ok ()
  | .authError => .error .invalidAuth
  | .networkError => .error .cannotConnect
  | .otherError => .error .other

/-- Model of `HVVConfigFlow.validate_auth`: the inner classification wrapped in the
outer `except Exception` handler, which catches every exception —
including the just-raised `CannotConnect` and `InvalidAuth`, both
subclasses of `Exception` — and raises `InvalidAuth()` in its place. -/
def validate_auth (probe : ProbeOutcome) : Except FlowError Unit :=
  match validate_auth_inner probe with
  | .ok () => .ok ()
  | .error _ => .error .invalidAuth

/-! Service handler (`services.py`): `handle_set_route`. -/

/-- An entity-registry entry: what `entity_registry.async_get` returns
for a known entity id. -/
structure EntityEntry where
  config_entry_id : String
  deriving DecidableEq

/-- The `set_route` service call data after the handler's own
normalisation of `entity_id` to a list.  `departure_time = none` means
the caller did not supply the parameter. -/
structure ServiceCallData where
  entity_id : List String
  destination_station : Option String
  destination_city : Option String
  departure_time : Option String

/-- Observable steps the handler performs for the log/trace: the two
coordinator mutations and the two skip warnings. -/
inductive SvcAction where
  | setDestination (eid : String) (station city : Option String)
  | setDepartureTime (eid : String) (t : String)
  | warnNoEntity (eid : String)
  | warnNoCoordinator (eid : String)
  deriving DecidableEq

/-- One iteration of the handler's `for entity_id in entity_ids` loop:
resolve the registry entry (warn and skip when absent), resolve the
stored coordinator (warn and skip when absent), then await
`set_destination` and — whenever the defaulted `departure_time` string is
truthy — `set_departure_time`.  Returns the updated coordinator storage
and the actions taken. -/
def processEntity (registry : List (String × EntityEntry))
    (client : RouteRequest → ClientResult)
    (station city : Option String) (dep : String)
    (coords : List (String × CoordinatorState)) (eid : String) :
    List (String × CoordinatorState) × List SvcAction :=
  match lookupKey eid registry with
  | none => (coords, [SvcAction.warnNoEntity eid])
  | some entry =>
      match lookupKey entry.config_entry_id coords with
      | none => (coords, [SvcAction.warnNoCoordinator eid])
      | some st =>
          let st1 := (set_destination client st station city).1
          if dep.isEmpty then
            (replaceKey entry.config_entry_id st1 coords,
             [SvcAction.setDestination eid station city])
          else
            let st2 := (set_departure_time client st1 (some dep)).1
            (replaceKey entry.config_entry_id st2 coords,
             [SvcAction.setDestination eid station city,
              SvcAction.setDepartureTime eid dep])

/-- The handler's loop over all targeted entity ids, threading the
coordinator storage. -/
def runEntities (registry : List (String × EntityEntry))
    (client : RouteRequest → ClientResult)
    (station city : Option String) (dep : String) :
    List (String × CoordinatorState) → List String →
    List (String × CoordinatorState) × List SvcAction
  | coords, [] => (coords, [])
  | coords, eid :: rest =>
      let step := processEntity registry client station city dep coords eid
      let rec' := runEntities registry client station city dep step.1 rest
      (rec'.1, step.2 ++ rec'.2)

/-- Model of `handle_set_route` (services.py): read the parameters —
`departure_time` defaulting to `"currenttime"` when absent — and process
each targeted entity in order.  The function is total: per-identifier
failures produce warnings in the trace, never an exception to the
caller. -/
def handle_set_route (registry : List (String × EntityEntry))
    (client : RouteRequest → ClientResult)
    (coords : List (String × CoordinatorState)) (call : ServiceCallData) :
    List (String × CoordinatorState) × List SvcAction :=
  let dep :=
    match call.departure_time with
    | some s => s
    | none => "currenttime"
  runEntities registry client call.destination_station
    call.destination_city dep coords call.entity_id

/-- The resolution-failure test the handler applies to one identifier,
together with the warning it logs: no registry entry, or no stored
coordinator under the entry's config-entry id. -/
def resolveFailAction (registry : List (String × EntityEntry))
    (coords : List (String × CoordinatorState)) (eid : String) :
    Option SvcAction :=
  match lookupKey eid registry with
  | none => some (SvcAction.warnNoEntity eid)
  | some entry =>
      match lookupKey entry.config_entry_id coords with
      | none => some (SvcAction.warnNoCoordinator eid)
      | some _ => none

/-! Integration setup (`__init__.py` and the sensor platform half of
`sensor.py`).  Coordinator objects are Python heap objects; the service
handler and the sensor can only interact through shared references, so
object identity is made explicit with a small allocation heap. -/

/-- A heap of coordinator objects: a fresh-id counter and the store. -/
structure Heap where
  nextId : Nat
  objs : List (Nat × CoordinatorState)

/-- Allocate a new coordinator object, returning its reference. -/
def Heap.alloc (h : Heap) (st : CoordinatorState) : Nat × Heap :=
  (h.nextId, { nextId := h.nextId + 1, objs := (h.nextId, st) :: h.objs })

/-- Dereference. -/
def Heap.get (h : Heap) (i : Nat) : Option CoordinatorState :=
  lookupKey i h.objs

/-- In-place mutation of the object behind a reference. -/
def Heap.set (h : Heap) (i : Nat) (st : CoordinatorState) : Heap :=
  { nextId := h.nextId, objs := replaceKey i st h.objs }

/-- The empty heap. -/
def emptyHeap : Heap := { nextId := 0, objs := [] }

/-- Persisted configuration of one config entry. -/
structure ConfigEntryData where
  entry_id : String
  username : String
  password : String
  home_station : String
  home_city : String

/-- The sensor entity built by the sensor platform: display name, unique
id, and the reference to the coordinator object it subscribes to. -/
structure SensorEntity where
  name : String
  unique_id : String
  coordinatorRef : Nat

/-- Model of `async_config_entry_first_refresh`: run the first update; a raised
`UpdateFailed` escalates to the caller (`ConfigEntryNotReady`), otherwise
the returned value is stored. -/
def firstRefresh (client : RouteRequest → ClientResult)
    (st : CoordinatorState) : Except String CoordinatorState :=
  match (asyncUpdateData client st).1 with
  | .success p => .ok { st with data := p, last_update_success := true }
  | .failed m => .error m

/-- Model of `sensor.async_setup_entry` (sensor.py): build a NEW coordinator from
the entry data, build the sensor subscribed to that new coordinator,
run the coordinator's first refresh (failure raises
`ConfigEntryNotReady("Setup failed: ...")`), and add the entity. -/
def sensor_async_setup_entry (client : RouteRequest → ClientResult)
    (h : Heap) (entry : ConfigEntryData) :
    Except String (Heap × SensorEntity) :=
  let st := newCoordinator entry.username entry.password
      entry.home_station entry.home_city
  let alloc := h.alloc st
  let sensor : SensorEntity :=
    { name := "HVV Route from " ++ entry.home_station,
      unique_id := "hvv_route_" ++ entry.entry_id,
      coordinatorRef := alloc.1 }
  match firstRefresh client st with
  | .error m => .error ("Setup failed: " ++ m)
  | .ok st' => .ok (alloc.2.set alloc.1 st', sensor)

/-- Result of `__init__.async_setup_entry`: success with the final heap,
the process-wide coordinator storage
(`hass.data["hvv_routes"]["coordinators"]`, keyed by entry id) and the
added entities; or `ConfigEntryNotReady`; or a plain `False` return for
missing configuration parameters. -/
inductive SetupResult where
  | ok (heap : Heap) (stored : List (String × Nat))
      (entities : List SensorEntity)
  | notReady (msg : String)
  | failedSetup

/-- Model of `__init__.async_setup_entry`: validate the four parameters, create a
coordinator, run its mandatory first refresh, store it under the entry
id, then forward to the sensor platform — which creates a second, distinct
coordinator for the sensor.  Any raised error becomes
`ConfigEntryNotReady`. -/
def init_async_setup_entry (client : RouteRequest → ClientResult)
    (h : Heap) (stored : List (String × Nat)) (entry : ConfigEntryData) :
    SetupResult :=
  if entry.username.isEmpty || entry.password.isEmpty ||
      entry.home_station.isEmpty || entry.home_city.isEmpty then
    .failedSetup
  else
    let st := newCoordinator entry.username entry.password
        entry.home_station entry.home_city
    let alloc := h.alloc st
    match firstRefresh client st with
    | .error m => .notReady ("Could not connect to HVV: " ++ m)
    | .ok st' =>
        let h2 := alloc.2.set alloc.1 st'
        let stored' := (entry.entry_id, alloc.1) :: stored
        match sensor_async_setup_entry client h2 entry with
        | .error m => .notReady ("Could not connect to HVV: " ++ m)
        | .ok hs => .ok hs.1 stored' [hs.2]

/-- The coordinator reference the service handler would retrieve for a
given entry id from a setup result's process-wide storage. -/
def SetupResult.storedRef (r : SetupResult) (k : String) : Option Nat :=
  match r with
  | .ok _ stored _ => lookupKey k stored
  | _ => none

/-- The coordinator references held by the entities a setup added. -/
def SetupResult.sensorRefs (r : SetupResult) : List Nat :=
  match r with
  | .ok _ _ es => es.map SensorEntity.coordinatorRef
  | _ => []

/-! Concrete instances used by closed theorems and witnesses. -/

/-- A config entry as the host hands it to setup. -/
def entry1 : ConfigEntryData :=
  { entry_id := "e1", username := "user", password := "pw",
    home_station := "Hauptbahnhof", home_city := "Hamburg" }

/-- A Transit Client that always answers with one journey whose duration
label is `"12 min"`. -/
def okClient : RouteRequest → ClientResult :=
  fun _ => .ok (.obj [("realtimeSchedules",
    .arr [.obj [("time", .str "12 min")]])])

/-- A Transit Client whose every call raises. -/
def routeClientDown : RouteRequest → ClientResult := fun _ => .err "boom"

/-- A Transit Client that answers every call with an empty dictionary —
an empty-but-valid response. -/
def emptyClient : RouteRequest → ClientResult := fun _ => .ok (.obj [])

/-- A coordinator with no destination configured. -/
def coordNoDest : CoordinatorState :=
  newCoordinator "user" "pw" "Hauptbahnhof" "Hamburg"

/-- A coordinator with a destination configured and no stored data. -/
def coordWithDest : CoordinatorState :=
  { coordNoDest with
    dest_station := some "Altona",
    dest_city := some "Hamburg" }

/-- The result of setting up `entry1` against `okClient`. -/
def setup1 : SetupResult := init_async_setup_entry okClient emptyHeap [] entry1

/-- The heap after the `set_route` service resolves `entry1`'s stored
coordinator and awaits `set_destination("Altona", "Hamburg")` on it. -/
def heapAfterService : Option Heap :=
  match setup1 with
  | .ok h stored _ =>
      match lookupKey "e1" stored with
      | some cid =>
          match h.get cid with
          | some st =>
              some (h.set cid
                (set_destination okClient st (some "Altona")
                  (some "Hamburg")).1)
          | none => none
      | none => none
  | _ => none

/-- C1: the claim says the coordinator the service retrieves from
process-wide storage under the entry id is the same object the sensor
subscribes to.  The code refutes this: `__init__.async_setup_entry`
stores the coordinator it allocated (reference 0), while
`sensor.async_setup_entry` allocates a second coordinator (reference 1)
for the sensor.  After the service sets the destination through the
stored reference, the stored coordinator shows the fetched journey but
the sensor's coordinator still shows `'No Destination Set'`. -/
theorem service_mutation_invisible_to_sensor :
    setup1.storedRef "e1" = some 0 ∧
    setup1.sensorRefs = [1] ∧
    (heapAfterService.bind
        (fun h => (h.get 0).map (fun st => sensorState st.data))
      = some (JValue.str "12 min")) ∧
    (heapAfterService.bind
        (fun h => (h.get 1).map (fun st => sensorState st.data))
      = some (JValue.str "No Destination Set")) :=
  ⟨rfl, rfl, rfl, rfl⟩

/-- C2 (counterexample): a coordinator with a configured destination and
no prior data whose refresh just failed (`UpdateFailed("Error: boom")`)
has sensor state `'No Destination Set'`, not `'Error'`: the state
property never consults `last_update_success`, and the failed refresh
left `data` unchanged. -/
theorem fetch_failure_state_not_error_cex :
    (asyncUpdateData routeClientDown coordWithDest).1
      = UpdateOutcome.failed "Error: boom" ∧
    (async_refresh routeClientDown coordWithDest).1.last_update_success
      = false ∧
    sensorState (async_refresh routeClientDown coordWithDest).1.data
      = JValue.str "No Destination Set" ∧
    sensorState (async_refresh routeClientDown coordWithDest).1.data
      ≠ JValue.str "Error" := by
  refine ⟨rfl, rfl, rfl, ?_⟩
  intro h
  have h2 : JValue.str "No Destination Set" = JValue.str "Error" := h
  injection h2 with h3
  exact absurd h3 (by decide)

/-- C2 (amended): after a refresh that ended in a fetch failure, the
stored data is unchanged, so the sensor's state is the projection of the
retained prior data; `'Error'` arises only when that projection itself
raises, not from the failure as such. -/
theorem fetch_failure_preserves_data_and_state
    (client : RouteRequest → ClientResult) (st : CoordinatorState)
    (m : String)
    (h : (asyncUpdateData client st).1 = UpdateOutcome.failed m) :
    (async_refresh client st).1.data = st.data ∧
    sensorState (async_refresh client st).1.data = sensorState st.data := by
  unfold async_refresh
  rw [h]
  exact ⟨rfl, rfl⟩

/-- Witness for the amended C2 theorem at the concrete failing client. -/
theorem fetch_failure_preserves_data_and_state_witness :
    (asyncUpdateData routeClientDown coordWithDest).1
      = UpdateOutcome.failed "Error: boom" ∧
    ((async_refresh routeClientDown coordWithDest).1.data
        = coordWithDest.data ∧
      sensorState (async_refresh routeClientDown coordWithDest).1.data
        = sensorState coordWithDest.data) :=
  ⟨rfl, fetch_failure_preserves_data_and_state routeClientDown
    coordWithDest "Error: boom" rfl⟩

/-- C3: the claim says a network-connectivity failure of the auth probe
reaches the caller as `CannotConnect`.  The inner handler of
`validate_auth` does raise `CannotConnect` for it — but the outer
`except Exception` catches that very exception and raises
`InvalidAuth()` instead, so the caller sees `InvalidAuth`. -/
theorem network_failure_collapses_to_invalid_auth :
    validate_auth_inner ProbeOutcome.networkError
      = Except.error FlowError.cannotConnect ∧
    validate_auth ProbeOutcome.networkError
      = Except.error FlowError.invalidAuth ∧
    validate_auth ProbeOutcome.networkError
      ≠ Except.error FlowError.cannotConnect := by
  refine ⟨rfl, rfl, ?_⟩
  intro h
  have h2 : (Except.error FlowError.invalidAuth : Except FlowError Unit)
      = Except.error FlowError.cannotConnect := h
  injection h2 with h3
  exact absurd h3 (by decide)

/-- C4: whenever `destination_station` or `destination_city` is unset or
empty, `_async_update_data` returns `None` — the "no destination
configured" marker — and performs zero Transit Client calls. -/
theorem no_destination_short_circuits_update
    (client : RouteRequest → ClientResult) (st : CoordinatorState)
    (h : strTruthy st.dest_station = false ∨ strTruthy st.dest_city = false) :
    asyncUpdateData client st = (UpdateOutcome.success none, []) := by
  have hc : destConfigured st = false := by
    unfold destConfigured
    rcases h with h | h <;> simp [h]
  unfold asyncUpdateData
  rw [hc]
  simp

/-- Witness for C4: a fresh coordinator with no destination. -/
theorem no_destination_short_circuits_update_witness :
    (strTruthy coordNoDest.dest_station = false ∨
      strTruthy coordNoDest.dest_city = false) ∧
    asyncUpdateData routeClientDown coordNoDest
      = (UpdateOutcome.success none, []) :=
  ⟨Or.inl rfl,
   no_destination_short_circuits_update routeClientDown coordNoDest
     (Or.inl rfl)⟩

/-- C5: `set_destination(s, c)` leaves the destination fields equal to
`(s, c)` and has triggered and awaited one refresh of the updated
configuration to completion before returning: either the refresh
succeeded and its payload is stored with `last_update_success` set, or
it failed and the prior data is retained with `last_update_success`
cleared. -/
theorem set_destination_sets_fields_and_refreshes
    (client : RouteRequest → ClientResult) (st : CoordinatorState)
    (s c : String) :
    (set_destination client st (some s) (some c)).1.dest_station = some s ∧
    (set_destination client st (some s) (some c)).1.dest_city = some c ∧
    ((∃ p, (set_destination client st (some s) (some c)).2
          = UpdateOutcome.success p ∧
        (set_destination client st (some s) (some c)).1.data = p ∧
        (set_destination client st (some s) (some c)).1.last_update_success
          = true) ∨
      (∃ m, (set_destination client st (some s) (some c)).2
          = UpdateOutcome.failed m ∧
        (set_destination client st (some s) (some c)).1.data = st.data ∧
        (set_destination client st (some s) (some c)).1.last_update_success
          = false)) := by
  unfold set_destination async_refresh
  cases hu : (asyncUpdateData client
      { st with dest_station := some s, dest_city := some c }).1 with
  | success p =>
      exact ⟨rfl, rfl, Or.inl ⟨p, rfl, rfl, rfl⟩⟩
  | failed m =>
      exact ⟨rfl, rfl, Or.inr ⟨m, rfl, rfl, rfl⟩⟩

/-- C7: with a destination configured, an empty-but-valid client response
(falsy payload) makes the refresh raise
`UpdateFailed("Error: No route data received")` — a fetch failure,
never the `None` "no destination configured" marker (or any other
returned value). -/
theorem empty_response_raises_update_failed
    (client : RouteRequest → ClientResult) (st : CoordinatorState)
    (p : JValue)
    (h1 : destConfigured st = true)
    (h2 : client (buildPayload st) = ClientResult.ok p)
    (h3 : p.truthy = false) :
    (asyncUpdateData client st).1
      = UpdateOutcome.failed "Error: No route data received" ∧
    ∀ q, (asyncUpdateData client st).1 ≠ UpdateOutcome.success q := by
  have he : (asyncUpdateData client st).1
      = UpdateOutcome.failed "Error: No route data received" := by
    unfold asyncUpdateData
    rw [h1]
    simp [h2, h3]
  refine ⟨he, ?_⟩
  intro q hq
  rw [he] at hq
  exact UpdateOutcome.noConfusion hq

/-- Witness for C7: the configured coordinator against the
empty-response client. -/
theorem empty_response_raises_update_failed_witness :
    destConfigured coordWithDest = true ∧
    emptyClient (buildPayload coordWithDest) = ClientResult.ok (JValue.obj []) ∧
    (JValue.obj []).truthy = false ∧
    ((asyncUpdateData emptyClient coordWithDest).1
        = UpdateOutcome.failed "Error: No route data received" ∧
      ∀ q, (asyncUpdateData emptyClient coordWithDest).1
        ≠ UpdateOutcome.success q) :=
  ⟨rfl, rfl, rfl,
   empty_response_raises_update_failed emptyClient coordWithDest
     (JValue.obj []) rfl rfl rfl⟩

/-- C9: `set_departure_time` changes only the departure-time override
before its awaited refresh: the destination fields and the home fields
are exactly those of the prior state. -/
theorem set_departure_time_preserves_destination_and_home
    (client : RouteRequest → ClientResult) (st : CoordinatorState)
    (t : Option String) :
    (set_departure_time client st t).1.dest_station = st.dest_station ∧
    (set_departure_time client st t).1.dest_city = st.dest_city ∧
    (set_departure_time client st t).1.home_station = st.home_station ∧
    (set_departure_time client st t).1.home_city = st.home_city ∧
    (set_departure_time client st t).1.departure_time = t := by
  unfold set_departure_time async_refresh
  cases (asyncUpdateData client { st with departure_time := t }).1 with
  | success p => exact ⟨rfl, rfl, rfl, rfl, rfl⟩
  | failed m => exact ⟨rfl, rfl, rfl, rfl, rfl⟩

/-- Helper: when an identifier fails to resolve, its loop iteration
leaves the coordinator storage untouched and contributes exactly the
logged warning. -/
theorem processEntity_resolve_fail (registry : List (String × EntityEntry))
    (client : RouteRequest → ClientResult)
    (station city : Option String) (dep : String)
    (coords : List (String × CoordinatorState)) (eid : String)
    (w : SvcAction)
    (h : resolveFailAction registry coords eid = some w) :
    processEntity registry client station city dep coords eid
      = (coords, [w]) := by
  cases hr : lookupKey eid registry with
  | none =>
      simp only [resolveFailAction, hr] at h
      simp only [processEntity, hr]
      injection h with h2
      rw [h2]
  | some entry =>
      cases hc : lookupKey entry.config_entry_id coords with
      | none =>
          simp only [resolveFailAction, hr, hc] at h
          simp only [processEntity, hr, hc]
          injection h with h2
          rw [h2]
      | some st =>
          simp only [resolveFailAction, hr, hc] at h
          exact Option.noConfusion h

/-- Helper: with a truthy departure-time string, any loop iteration that
records a `set_destination` call also records the matching
`set_departure_time` call. -/
theorem processEntity_dest_imp_dep (registry : List (String × EntityEntry))
    (client : RouteRequest → ClientResult)
    (station city : Option String) (dep : String)
    (coords : List (String × CoordinatorState)) (eid eid' : String)
    (hdep : dep.isEmpty = false)
    (hmem : SvcAction.setDestination eid' station city
        ∈ (processEntity registry client station city dep coords eid).2) :
    SvcAction.setDepartureTime eid' dep
      ∈ (processEntity registry client station city dep coords eid).2 := by
  cases hr : lookupKey eid registry with
  | none =>
      simp [processEntity, hr] at hmem
  | some entry =>
      cases hc : lookupKey entry.config_entry_id coords with
      | none =>
          simp [processEntity, hr, hc] at hmem
      | some st =>
          simp [processEntity, hr, hc, hdep] at hmem ⊢
          exact hmem

/-- Helper: membership transfer along the whole loop. -/
theorem runEntities_dest_imp_dep (registry : List (String × EntityEntry))
    (client : RouteRequest → ClientResult)
    (station city : Option String) (dep : String)
    (hdep : dep.isEmpty = false) :
    ∀ (eids : List String) (coords : List (String × CoordinatorState))
      (eid' : String),
      SvcAction.setDestination eid' station city
          ∈ (runEntities registry client station city dep coords eids).2 →
      SvcAction.setDepartureTime eid' dep
        ∈ (runEntities registry client station city dep coords eids).2 := by
  intro eids
  induction eids with
  | nil =>
      intro coords eid' h
      simp [runEntities] at h
  | cons x xs ih =>
      intro coords eid' h
      simp only [runEntities, List.mem_append] at h ⊢
      rcases h with h | h
      · exact Or.inl (processEntity_dest_imp_dep registry client station
          city dep coords x eid' hdep h)
      · exact Or.inr (ih _ _ h)

/-- C6 (amended): when the caller supplies no `departure_time`, the
handler defaults it to the truthy string `"currenttime"`, so every
identifier for which it awaited `set_destination` also gets an awaited
`set_departure_time("currenttime")`; the departure-time call is skipped
only for identifiers that were not resolved (or, for any caller, when an
explicitly supplied `departure_time` is the empty string). -/
theorem handler_defaults_and_calls_departure_time
    (registry : List (String × EntityEntry))
    (client : RouteRequest → ClientResult)
    (coords : List (String × CoordinatorState)) (call : ServiceCallData)
    (eid : String)
    (hnone : call.departure_time = none)
    (hdest : SvcAction.setDestination eid call.destination_station
        call.destination_city
        ∈ (handle_set_route registry client coords call).2) :
    SvcAction.setDepartureTime eid "currenttime"
      ∈ (handle_set_route registry client coords call).2 := by
  unfold handle_set_route at hdest ⊢
  rw [hnone] at hdest ⊢
  exact runEntities_dest_imp_dep registry client call.destination_station
    call.destination_city "currenttime" (by decide) call.entity_id coords
    eid hdest

/-- Registry with one sensor entity owned by config entry `e1`. -/
def registry6 : List (String × EntityEntry) :=
  [("sensor.hvv_route", { config_entry_id := "e1" })]

/-- Coordinator storage holding `e1`'s coordinator. -/
def coords6 : List (String × CoordinatorState) := [("e1", coordNoDest)]

/-- A `set_route` call that supplies no `departure_time`. -/
def call6 : ServiceCallData :=
  { entity_id := ["sensor.hvv_route"],
    destination_station := some "Altona",
    destination_city := some "Hamburg",
    departure_time := none }

/-- C6 (counterexample): a `set_route` call without a `departure_time`
parameter still makes the handler await `set_departure_time` on the
resolved coordinator — the absent parameter defaults to `"currenttime"`,
which is truthy, so the `if departure_time:` guard never skips it. -/
theorem set_route_default_calls_set_departure_time_cex :
    (handle_set_route registry6 okClient coords6 call6).2 =
      [SvcAction.setDestination "sensor.hvv_route" (some "Altona")
         (some "Hamburg"),
       SvcAction.setDepartureTime "sensor.hvv_route" "currenttime"] := rfl

/-- Witness for the amended C6 theorem at the concrete call. -/
theorem handler_defaults_and_calls_departure_time_witness :
    call6.departure_time = none ∧
    SvcAction.setDestination "sensor.hvv_route" (some "Altona")
        (some "Hamburg")
      ∈ (handle_set_route registry6 okClient coords6 call6).2 ∧
    SvcAction.setDepartureTime "sensor.hvv_route" "currenttime"
      ∈ (handle_set_route registry6 okClient coords6 call6).2 :=
  ⟨rfl, by decide,
   handler_defaults_and_calls_departure_time registry6 okClient coords6
     call6 "sensor.hvv_route" rfl (by decide)⟩

/-- Helper: the loop processes a concatenation sequentially. -/
theorem runEntities_append (registry : List (String × EntityEntry))
    (client : RouteRequest → ClientResult)
    (station city : Option String) (dep : String) :
    ∀ (xs ys : List String) (coords : List (String × CoordinatorState)),
      runEntities registry client station city dep coords (xs ++ ys) =
        ((runEntities registry client station city dep
            (runEntities registry client station city dep coords xs).1
            ys).1,
         (runEntities registry client station city dep coords xs).2 ++
           (runEntities registry client station city dep
             (runEntities registry client station city dep coords xs).1
             ys).2) := by
  intro xs
  induction xs with
  | nil => intro ys coords; simp [runEntities]
  | cons x xs ih =>
      intro ys coords
      simp only [List.cons_append, runEntities, List.append_eq, ih,
        List.append_assoc]

/-- C8: an identifier that fails to resolve (no registry entry, or no
stored coordinator) is skipped: its iteration logs exactly the warning,
leaves the coordinator storage untouched, and every identifier after it
is processed exactly as it would have been without the failing one.  The
handler is a total function: no exception reaches the caller. -/
theorem unresolved_identifier_skipped_batch_continues
    (registry : List (String × EntityEntry))
    (client : RouteRequest → ClientResult)
    (station city : Option String) (dep : String)
    (coords : List (String × CoordinatorState))
    (pre post : List String) (bad : String) (w : SvcAction)
    (h : resolveFailAction registry
        (runEntities registry client station city dep coords pre).1 bad
      = some w) :
    runEntities registry client station city dep coords
        (pre ++ bad :: post) =
      ((runEntities registry client station city dep
          (runEntities registry client station city dep coords pre).1
          post).1,
       (runEntities registry client station city dep coords pre).2 ++
         w :: (runEntities registry client station city dep
           (runEntities registry client station city dep coords pre).1
           post).2) := by
  rw [runEntities_append registry client station city dep pre (bad :: post)
    coords]
  have hp := processEntity_resolve_fail registry client station city dep
    (runEntities registry client station city dep coords pre).1 bad w h
  simp only [runEntities, hp]
  simp

/-- Witness for C8: one unknown identifier followed by one valid one. -/
theorem unresolved_identifier_skipped_batch_continues_witness :
    resolveFailAction registry6
        (runEntities registry6 okClient (some "Altona") (some "Hamburg")
          "currenttime" coords6 []).1 "sensor.unknown"
      = some (SvcAction.warnNoEntity "sensor.unknown") ∧
    runEntities registry6 okClient (some "Altona") (some "Hamburg")
        "currenttime" coords6 ([] ++ "sensor.unknown" :: ["sensor.hvv_route"]) =
      ((runEntities registry6 okClient (some "Altona") (some "Hamburg")
          "currenttime"
          (runEntities registry6 okClient (some "Altona") (some "Hamburg")
            "currenttime" coords6 []).1 ["sensor.hvv_route"]).1,
       (runEntities registry6 okClient (some "Altona") (some "Hamburg")
           "currenttime" coords6 []).2 ++
         SvcAction.warnNoEntity "sensor.unknown" ::
           (runEntities registry6 okClient (some "Altona") (some "Hamburg")
             "currenttime"
             (runEntities registry6 okClient (some "Altona")
               (some "Hamburg") "currenttime" coords6 []).1
             ["sensor.hvv_route"]).2) :=
  ⟨rfl,
   unresolved_identifier_skipped_batch_continues registry6 okClient
     (some "Altona") (some "Hamburg") "currenttime" coords6 []
     ["sensor.hvv_route"] "sensor.unknown"
     (SvcAction.warnNoEntity "sensor.unknown") rfl⟩

/-- Helper: the attribute loop aborts with the exception as soon as any
schedule's entry raises. -/
theorem mapRoutes_error_of_mem (js : List JValue) (j : JValue)
    (hj : j ∈ js) (he : routeEntry j = .error ()) :
    mapRoutes js = .error () := by
  induction js with
  | nil => cases hj
  | cons x xs ih =>
      rcases List.mem_cons.mp hj with h | h
      · subst h
        unfold mapRoutes
        rw [he]
        rfl
      · cases hx : routeEntry x with
        | error e =>
            unfold mapRoutes
            rw [hx]
            cases e
            rfl
        | ok r =>
            unfold mapRoutes
            rw [hx, ih h]
            rfl

/-- Helper: a schedule dictionary whose `scheduleElements` key is bound
to the empty list makes its route entry raise — the `[{}]` default is
not used for a present key, and indexing the empty list raises. -/
theorem routeEntry_error_of_empty_legs (j : JValue)
    (hse : pyDictGet j "scheduleElements" (JValue.arr [JValue.obj []])
      = .ok (JValue.arr [])) :
    routeEntry j = .error () := by
  have hobj : ∃ fs, j = JValue.obj fs := by
    cases j with
    | obj fs => exact ⟨fs, rfl⟩
    | null => exact absurd hse (by simp [pyDictGet])
    | str s => exact absurd hse (by simp [pyDictGet])
    | num n => exact absurd hse (by simp [pyDictGet])
    | arr xs => exact absurd hse (by simp [pyDictGet])
  obtain ⟨fs, rfl⟩ := hobj
  have hleg : legLineField (JValue.obj fs) "name" = .error () := by
    unfold legLineField
    rw [hse]
    rfl
  unfold routeEntry
  rw [hleg]
  rfl

/-- C10: if the stored payload's `realtimeSchedules` contains a journey
whose `scheduleElements` key is present but bound to an empty list, the
whole `extra_state_attributes` body raises (indexing the first leg
fails), and the blanket handler returns the empty dictionary — the
RouteConfig echo fields and every other journey's route entry are all
dropped. -/
theorem empty_schedule_elements_empties_attributes
    (st : CoordinatorState) (p sch : JValue) (js : List JValue) (j : JValue)
    (hdata : st.data = some p) (htr : p.truthy = true)
    (hs : pyDictGet p "realtimeSchedules" (JValue.arr []) = .ok sch)
    (hit : pyIter sch = .ok js)
    (hj : j ∈ js)
    (hse : pyDictGet j "scheduleElements" (JValue.arr [JValue.obj []])
      = .ok (JValue.arr [])) :
    extra_state_attributes st = JValue.obj [] := by
  have hm : mapRoutes js = .error () :=
    mapRoutes_error_of_mem js j hj (routeEntry_error_of_empty_legs j hse)
  unfold extra_state_attributes attributesGo
  rw [hdata]
  simp only [Option.getD_some, optTruthy, htr]
  rw [if_neg (by decide : ¬ (true = false))]
  rw [hs]
  show (match (Except.ok sch >>= fun scheduleList =>
      pyIter scheduleList >>= fun items =>
      mapRoutes items >>= fun routes =>
      Except.ok (JValue.obj (configEcho st ++ [("routes", JValue.arr routes)]))
      : Except Unit JValue) with
    | .ok v => v
    | .error _ => JValue.obj []) = JValue.obj []
  rw [show (Except.ok sch >>= fun scheduleList =>
      pyIter scheduleList >>= fun items =>
      mapRoutes items >>= fun routes =>
      Except.ok (JValue.obj (configEcho st ++ [("routes", JValue.arr routes)]))
      : Except Unit JValue)
    = (pyIter sch >>= fun items =>
      mapRoutes items >>= fun routes =>
      Except.ok (JValue.obj (configEcho st ++ [("routes", JValue.arr routes)]))) from rfl]
  rw [hit]
  rw [show ((Except.ok js : Except Unit (List JValue)) >>= fun items =>
      mapRoutes items >>= fun routes =>
      Except.ok (JValue.obj (configEcho st ++ [("routes", JValue.arr routes)])))
    = (mapRoutes js >>= fun routes =>
      Except.ok (JValue.obj (configEcho st ++ [("routes", JValue.arr routes)]))) from rfl]
  rw [hm]
  rfl

/-- A journey whose `scheduleElements` key is present but empty. -/
def badJourney : JValue :=
  JValue.obj [("scheduleElements", JValue.arr []),
              ("plannedDepartureTime", JValue.str "12:00"),
              ("plannedArrivalTime", JValue.str "12:30"),
              ("time", JValue.str "30 min")]

/-- A stored payload containing that one journey. -/
def payload10 : JValue :=
  JValue.obj [("realtimeSchedules", JValue.arr [badJourney])]

/-- A coordinator holding `payload10`. -/
def coord10 : CoordinatorState := { coordWithDest with data := some payload10 }

/-- Witness for C10 at the concrete payload. -/
theorem empty_schedule_elements_empties_attributes_witness :
    coord10.data = some payload10 ∧
    payload10.truthy = true ∧
    pyDictGet payload10 "realtimeSchedules" (JValue.arr [])
      = .ok (JValue.arr [badJourney]) ∧
    pyIter (JValue.arr [badJourney]) = .ok [badJourney] ∧
    badJourney ∈ [badJourney] ∧
    pyDictGet badJourney "scheduleElements" (JValue.arr [JValue.obj []])
      = .ok (JValue.arr []) ∧
    extra_state_attributes coord10 = JValue.obj [] :=
  ⟨rfl, rfl, rfl, rfl, List.mem_singleton_self _, rfl,
   empty_schedule_elements_empties_attributes coord10 payload10
     (JValue.arr [badJourney]) [badJourney] badJourney rfl rfl rfl rfl
     (List.mem_singleton_self _) rfl⟩
